import Mathlib

/-!
Verification of the wechat-fastapi service (files `wechat_handler.py`,
`essay_handler.py`, `main.py`) against its design specification.

The Python code is shallowly embedded: pure functions become Lean
functions, stateful methods become explicit state passing, machine
words are `Nat` reduced modulo `2 ^ 32` where overflow matters, the
external world (HTTP responses, the clock, file I/O success) is passed
in as explicit oracle arguments, and the lock discipline of the
persistence layer is modelled as event traces.
-/

/-! ## SHA-1 over byte lists (`hashlib.sha1`), words as `Nat` mod `2 ^ 32` -/

/-- Reduce to a 32-bit word. -/
def w32 (n : Nat) : Nat := n % 4294967296

/-- Left-rotate a 32-bit word by `k` bits.  For `n < 2 ^ 32` the two
summands occupy disjoint bit ranges, so addition is bitwise or. -/
def rotl (k n : Nat) : Nat := w32 (n * 2 ^ k) + n / 2 ^ (32 - k)

/-- Bitwise complement of a 32-bit word. -/
def wnot (n : Nat) : Nat := 4294967295 - n

/-- UTF-8 encoding of a single Unicode code point, as byte values. -/
def utf8EncodeCodepoint (n : Nat) : List Nat :=
  if n < 128 then [n]
  else if n < 2048 then [192 + n / 64, 128 + n % 64]
  else if n < 65536 then [224 + n / 4096, 128 + n / 64 % 64, 128 + n % 64]
  else [240 + n / 262144, 128 + n / 4096 % 64, 128 + n / 64 % 64, 128 + n % 64]

/-- UTF-8 byte sequence of a string (Python's `str.encode('utf-8')`). -/
def utf8Bytes (s : String) : List Nat :=
  s.data.foldr (fun c acc => utf8EncodeCodepoint c.toNat ++ acc) []

/-- SHA-1 padding: append `0x80`, zero bytes up to 56 mod 64, then the
original bit length as 8 big-endian bytes. -/
def sha1Pad (msg : List Nat) : List Nat :=
  let len := msg.length
  let bitLen := len * 8
  let zeros := (119 - len % 64) % 64
  msg ++ [128] ++ List.replicate zeros 0 ++
    [bitLen / 72057594037927936 % 256,
     bitLen / 281474976710656 % 256,
     bitLen / 1099511627776 % 256,
     bitLen / 4294967296 % 256,
     bitLen / 16777216 % 256,
     bitLen / 65536 % 256,
     bitLen / 256 % 256,
     bitLen % 256]

/-- Group bytes into big-endian 32-bit words. -/
def bytesToWords : List Nat → List Nat
  | b0 :: b1 :: b2 :: b3 :: rest =>
      (((b0 * 256 + b1) * 256 + b2) * 256 + b3) :: bytesToWords rest
  | _ => []

/-- Extend the 16 words of a block by `fuel` schedule words:
`w i = rotl 1 (w (i-3) xor w (i-8) xor w (i-14) xor w (i-16))`. -/
def extendWords : List Nat → Nat → List Nat
  | ws, 0 => ws
  | ws, fuel + 1 =>
      let n := ws.length
      extendWords
        (ws ++ [rotl 1 ((ws.getD (n - 3) 0) ^^^ (ws.getD (n - 8) 0) ^^^
                        (ws.getD (n - 14) 0) ^^^ (ws.getD (n - 16) 0))]) fuel

/-- Round constant for round `i`. -/
def sha1K (i : Nat) : Nat :=
  if i < 20 then 1518500249
  else if i < 40 then 1859775393
  else if i < 60 then 2400959708
  else 3395469782

/-- Round function for round `i`. -/
def sha1F (i b c d : Nat) : Nat :=
  if i < 20 then (b &&& c) ||| (wnot b &&& d)
  else if i < 40 then b ^^^ c ^^^ d
  else if i < 60 then (b &&& c) ||| (b &&& d) ||| (c &&& d)
  else b ^^^ c ^^^ d

/-- One SHA-1 round on the five-word state. -/
def sha1Step (st : Nat × Nat × Nat × Nat × Nat) (iw : Nat × Nat) :
    Nat × Nat × Nat × Nat × Nat :=
  let (a, b, c, d, e) := st
  let (i, w) := iw
  (w32 (rotl 5 a + sha1F i b c d + e + sha1K i + w), a, rotl 30 b, c, d)

/-- Process one 512-bit block, updating the running hash state. -/
def sha1Block (h : Nat × Nat × Nat × Nat × Nat) (ws16 : List Nat) :
    Nat × Nat × Nat × Nat × Nat :=
  let (h0, h1, h2, h3, h4) := h
  let (a, b, c, d, e) := (extendWords ws16 64).enum.foldl sha1Step h
  (w32 (h0 + a), w32 (h1 + b), w32 (h2 + c), w32 (h3 + d), w32 (h4 + e))

/-- SHA-1 of a byte list: pad, then fold the compression function over
the 64-byte blocks starting from the standard initial state. -/
def sha1Core (msg : List Nat) : Nat × Nat × Nat × Nat × Nat :=
  let padded := sha1Pad msg
  (List.range (padded.length / 64)).foldl
    (fun h i => sha1Block h (bytesToWords ((padded.drop (64 * i)).take 64)))
    (1732584193, 4023233417, 2562383102, 271733878, 3285377520)

/-- Lowercase hex digit. -/
def hexDigit (n : Nat) : Char :=
  if n < 10 then Char.ofNat (48 + n) else Char.ofNat (87 + n)

/-- Eight lowercase hex digits of a 32-bit word, most significant first. -/
def toHex8 (n : Nat) : String :=
  String.mk ((List.range 8).map (fun i => hexDigit (n / 2 ^ (28 - 4 * i) % 16)))

/-- `hashlib.sha1(s.encode('utf-8')).hexdigest()`: the 40-character
lowercase hexadecimal SHA-1 digest of a string. -/
def sha1Hex (s : String) : String :=
  let (h0, h1, h2, h3, h4) := sha1Core (utf8Bytes s)
  toHex8 h0 ++ toHex8 h1 ++ toHex8 h2 ++ toHex8 h3 ++ toHex8 h4

/-! ## Signature verification (`WeChatHandler.verify_signature`) -/

/-- The configuration of a `WeChatHandler`: the shared secret token set
in `__init__`. -/
structure WeChatConfig where
  token : String
deriving DecidableEq

/-- Python string `<=`: lexicographic comparison by Unicode code point. -/
def codeLe : List Nat → List Nat → Bool
  | [], _ => true
  | _ :: _, [] => false
  | x :: xs, y :: ys => if x < y then true else if y < x then false else codeLe xs ys

/-- Python string comparison on whole strings. -/
def pyStrLe (a b : String) : Bool :=
  codeLe (a.data.map Char.toNat) (b.data.map Char.toNat)

/-- Insert a string into an ascending list (helper for `sortStrings`). -/
def insertSorted (x : String) : List String → List String
  | [] => [x]
  | y :: ys => if pyStrLe x y then x :: y :: ys else y :: insertSorted x ys

/-- Python `list.sort()` on strings: stable ascending sort by code point. -/
def sortStrings (l : List String) : List String :=
  l.foldr insertSorted []

/-- `WeChatHandler.verify_signature`: sort `[token, timestamp, nonce]`,
join, SHA-1, compare the hex digest with the supplied signature. -/
def verify_signature (cfg : WeChatConfig) (signature timestamp nonce : String) :
    Bool :=
  let s := sortStrings [cfg.token, timestamp, nonce]
  let s_str := String.join s
  let calc_signature := sha1Hex s_str
  calc_signature == signature

/-- The spec's wording of 4.3: the hex SHA-1 digest of the join of the
lexicographically sorted three strings equals the supplied signature. -/
def verifySpec (cfg : WeChatConfig) (signature timestamp nonce : String) : Prop :=
  sha1Hex (String.join (sortStrings [cfg.token, timestamp, nonce])) = signature

/-- Claim C1: `verify_signature(signature, timestamp, nonce)` returns true
if and only if the hexadecimal SHA-1 digest of the string obtained by
lexicographically sorting the three strings (shared secret token,
timestamp, nonce) and joining them equals the supplied signature exactly. -/
theorem verify_signature_iff_sha1 (cfg : WeChatConfig)
    (signature timestamp nonce : String) :
    verify_signature cfg signature timestamp nonce = true ↔
      verifySpec cfg signature timestamp nonce := by
  simp [verify_signature, verifySpec]

/-! ## Access-token cache (`WeChatHandler.get_access_token` /
`WeChatHandler._fetch_access_token`)

The mutable fields `_access_token` and `_token_expires_at` become an
explicit `TokenState`; `time.time()` becomes the argument `now` (an
integer timestamp); the HTTP response of `requests.get` becomes the
oracle `FetchOutcome`.  `get_access_token` additionally reports how many
fetch requests the call issued. -/

/-- The cached credential: `_access_token` (initially `None`) and
`_token_expires_at` (initially `0`). -/
structure TokenState where
  access_token : Option String
  token_expires_at : Int
deriving DecidableEq

/-- The JSON payload of a completed token-endpoint response: the
optional `access_token` and `expires_in` fields. -/
structure FetchPayload where
  access_token : Option String
  expires_in : Option Int
deriving DecidableEq

/-- Outcome of the `requests.get` call inside `_fetch_access_token`:
either a `requests.exceptions.RequestException` (transport error or
non-2xx status) or a decoded JSON payload. -/
inductive FetchOutcome
  | transportError
  | ok (p : FetchPayload)
deriving DecidableEq

/-- Python truthiness of an optional string: `None` and `""` are falsy. -/
def pyTruthy : Option String → Bool
  | none => false
  | some s => !s.isEmpty

/-- `WeChatHandler._fetch_access_token`: on a decoded payload with a
truthy `access_token`, store it and set the expiry to
`now + expires_in - 300` (with `expires_in` defaulting to 7200) and
return `True`; on an error payload or a transport error return `False`
without touching the state. -/
def fetch_access_token (now : Int) (o : FetchOutcome) (st : TokenState) :
    Bool × TokenState :=
  match o with
  | .transportError => (false, st)
  | .ok p =>
      if pyTruthy p.access_token then
        (true, { access_token := p.access_token,
                 token_expires_at := now + p.expires_in.getD 7200 - 300 })
      else
        (false, st)

/-- `WeChatHandler.get_access_token`: return the cached token when it is
truthy and unexpired; otherwise fetch.  The third component counts the
fetch requests issued by this call. -/
def get_access_token (now : Int) (o : FetchOutcome) (st : TokenState) :
    Option String × TokenState × Nat :=
  if pyTruthy st.access_token ∧ now < st.token_expires_at then
    (st.access_token, st, 0)
  else
    let (okb, st') := fetch_access_token now o st
    if okb then (st'.access_token, st', 1) else (none, st', 1)

/-- Claim C2: a truthy cached token that has not expired is returned with
no fetch; otherwise exactly one fetch is issued, a success stores the
returned token with expiry `now + TTL - 300` (TTL defaulting to 7200
when the provider omits it) and returns it, and a transport error or an
error payload returns `none`.  No retry happens within the call. -/
theorem get_access_token_cases (now : Int) (o : FetchOutcome) (st : TokenState) :
    get_access_token now o st =
      if pyTruthy st.access_token ∧ now < st.token_expires_at then
        (st.access_token, st, 0)
      else
        match o with
        | .transportError => (none, st, 1)
        | .ok p =>
            if pyTruthy p.access_token then
              (p.access_token,
               { access_token := p.access_token,
                 token_expires_at := now + p.expires_in.getD 7200 - 300 }, 1)
            else (none, st, 1) := by
  by_cases h : pyTruthy st.access_token ∧ now < st.token_expires_at
  · simp [get_access_token, h]
  · cases o with
    | transportError => simp [get_access_token, fetch_access_token, h]
    | ok p =>
        by_cases hp : pyTruthy p.access_token = true
        · simp [get_access_token, fetch_access_token, h, hp]
        · simp [get_access_token, fetch_access_token, h, hp]

/-- Claim C10: when `get_access_token` fails to obtain a token (returns
`none`), the cached credential state is completely unchanged. -/
theorem get_access_token_state_unchanged_on_failure (now : Int)
    (o : FetchOutcome) (st : TokenState)
    (h : (get_access_token now o st).1 = none) :
    (get_access_token now o st).2.1 = st := by
  unfold get_access_token at h ⊢
  by_cases hc : pyTruthy st.access_token ∧ now < st.token_expires_at
  · simp [hc]
  · simp only [if_neg hc] at h ⊢
    cases o with
    | transportError => simp [fetch_access_token]
    | ok p =>
        by_cases hp : pyTruthy p.access_token = true
        · simp [fetch_access_token, hp] at h
          rw [h] at hp
          simp [pyTruthy] at hp
        · simp [fetch_access_token, hp]

/-- Witness for C10 at a concrete input: an expired cache and a
transport error leave the state `⟨some "t", 10⟩` unchanged. -/
theorem get_access_token_state_unchanged_on_failure_witness :
    (get_access_token 50 .transportError ⟨some "t", 10⟩).2.1 = ⟨some "t", 10⟩ :=
  get_access_token_state_unchanged_on_failure 50 .transportError
    ⟨some "t", 10⟩ (by decide)

/-! ## Push dispatcher (`WeChatHandler.push_to_all_subscribers`)

The outcome of `send_text_message` for each recipient is given by the
oracle `send : String → Bool` (it already folds in credential failure,
transport failure and provider error codes, each of which the method
reports as `False`).  Besides the `(success_count, failure_count)` pair
the embedding records the list of identifiers a send was attempted for,
in order, so that "one send per id, no short-circuit" is observable. -/

/-- The loop of `push_to_all_subscribers`: one send per identifier,
counting successes and failures and logging every attempt. -/
def pushLoop (send : String → Bool) :
    List String → Nat → Nat → List String → Nat × Nat × List String
  | [], s, f, log => (s, f, log)
  | oid :: rest, s, f, log =>
      if send oid then pushLoop send rest (s + 1) f (log ++ [oid])
      else pushLoop send rest s (f + 1) (log ++ [oid])

/-- `WeChatHandler.push_to_all_subscribers`: empty id set returns
`(0, 0)` before the loop; otherwise every id is attempted. -/
def push_to_all_subscribers (send : String → Bool) (openids : List String) :
    Nat × Nat × List String :=
  if openids.isEmpty then (0, 0, [])
  else pushLoop send openids 0 0 []

/-- Accumulator-generalised characterisation of the push loop. -/
theorem pushLoop_eq (send : String → Bool) (l : List String)
    (s f : Nat) (log : List String) :
    pushLoop send l s f log =
      (s + l.countP send, f + l.countP (fun x => !send x), log ++ l) := by
  induction l generalizing s f log with
  | nil => simp [pushLoop]
  | cons oid rest ih =>
      by_cases h : send oid = true
      · simp [pushLoop, h, ih, List.countP_cons]
        omega
      · simp only [Bool.not_eq_true] at h
        simp [pushLoop, h, ih, List.countP_cons]
        omega

/-- Claim C3: with an empty id set the dispatcher returns `(0, 0)` and
attempts no send; with ids it attempts exactly one send per id in order
regardless of prior failures, the two counters sum to the number of ids,
all-failing sends give `(0, N)` and all-succeeding sends give `(N, 0)`. -/
theorem push_to_all_subscribers_spec (send : String → Bool)
    (openids : List String) :
    push_to_all_subscribers send [] = (0, 0, []) ∧
    (push_to_all_subscribers send openids).2.2 = openids ∧
    (push_to_all_subscribers send openids).1 +
      (push_to_all_subscribers send openids).2.1 = openids.length ∧
    ((∀ oid ∈ openids, send oid = false) →
      push_to_all_subscribers send openids = (0, openids.length, openids)) ∧
    ((∀ oid ∈ openids, send oid = true) →
      push_to_all_subscribers send openids = (openids.length, 0, openids)) := by
  have hpush : push_to_all_subscribers send openids =
      (openids.countP send, openids.countP (fun x => !send x), openids) := by
    unfold push_to_all_subscribers
    by_cases h : openids.isEmpty
    · rw [if_pos h]
      rw [List.isEmpty_iff] at h
      simp [h]
    · rw [if_neg h, pushLoop_eq]
      simp
  refine ⟨by simp [push_to_all_subscribers], ?_, ?_, ?_, ?_⟩
  · rw [hpush]
  · rw [hpush]
    simpa using (List.length_eq_countP_add_countP send openids).symm
  · intro hall
    rw [hpush]
    have h1 : openids.countP send = 0 := by
      rw [List.countP_eq_zero]
      intro a ha
      simp [hall a ha]
    have h2 : openids.countP (fun x => !send x) = openids.length := by
      rw [List.countP_eq_length]
      intro a ha
      simp [hall a ha]
    rw [h1, h2]
  · intro hall
    rw [hpush]
    have h1 : openids.countP send = openids.length := by
      rw [List.countP_eq_length]
      intro a ha
      simp [hall a ha]
    have h2 : openids.countP (fun x => !send x) = 0 := by
      rw [List.countP_eq_zero]
      intro a ha
      simp [hall a ha]
    rw [h1, h2]

/-- Witness for C3 at concrete inputs: with the always-failing send on
`["a", "b"]` the result is `(0, 2)`, and with the always-succeeding send
it is `(2, 0)`; the empty set gives `(0, 0)` with no attempt. -/
theorem push_to_all_subscribers_spec_witness :
    push_to_all_subscribers (fun _ => false) [] = (0, 0, []) ∧
    push_to_all_subscribers (fun _ => false) ["a", "b"] = (0, 2, ["a", "b"]) ∧
    push_to_all_subscribers (fun _ => true) ["a", "b"] = (2, 0, ["a", "b"]) :=
  ⟨(push_to_all_subscribers_spec (fun _ => false) []).1,
   by
    have h := (push_to_all_subscribers_spec (fun _ => false) ["a", "b"]).2.2.2.1
      (by decide)
    simpa using h,
   by
    have h := (push_to_all_subscribers_spec (fun _ => true) ["a", "b"]).2.2.2.2
      (by decide)
    simpa using h⟩

/-! ## Subscriber-identifier store (`EssayHandler.save_openid` /
`EssayHandler.get_all_openids`)

The JSON file `openids.json` holds a list of strings; it becomes a
`List String`.  Python's `set(...)`/`list(...)` round-trip in
`save_openid` deduplicates with an unspecified iteration order; the
embedding fixes the order as the new id consed onto the deduplicated
old list, which agrees with the code on membership and duplicate-
freedom, the only properties the set type determines.  File writes are
taken on their success path (`_save_data` returning `True`). -/

/-- `EssayHandler.get_all_openids` membership: `set(openids_list)` has
exactly the members of the stored list. -/
def openidMem (openid : String) (store : List String) : Prop :=
  openid ∈ store

/-- `EssayHandler.save_openid`: load the stored list as a set; if the id
is absent, add it and write the set back as a list; otherwise write
nothing.  Both paths report success. -/
def save_openid (openid : String) (store : List String) :
    Bool × List String :=
  if openid ∈ store then (true, store)
  else (true, openid :: store.dedup)

/-- Run a sequence of `save_openid` calls against a store. -/
def runSaveOpenids (ids : List String) (store : List String) : List String :=
  ids.foldl (fun st id => (save_openid id st).2) store

/-- `save_openid` preserves duplicate-freedom of the stored list. -/
theorem save_openid_nodup (openid : String) (store : List String)
    (h : store.Nodup) : (save_openid openid store).2.Nodup := by
  unfold save_openid
  by_cases hm : openid ∈ store
  · simpa [hm]
  · simp only [if_neg hm]
    exact List.Nodup.cons (by simpa using hm) store.nodup_dedup

/-- Membership after `save_openid`: the new id together with the old
members. -/
theorem save_openid_mem (openid x : String) (store : List String) :
    x ∈ (save_openid openid store).2 ↔ x = openid ∨ x ∈ store := by
  unfold save_openid
  by_cases hm : openid ∈ store
  · simp only [if_pos hm]
    constructor
    · exact Or.inr
    · rintro (rfl | hx)
      · exact hm
      · exact hx
  · simp [if_neg hm]

/-- Membership after a whole run of `save_openid` calls. -/
theorem runSaveOpenids_mem (ids : List String) (store : List String)
    (x : String) :
    x ∈ runSaveOpenids ids store ↔ x ∈ store ∨ x ∈ ids := by
  induction ids generalizing store with
  | nil => simp [runSaveOpenids]
  | cons id rest ih =>
      show x ∈ runSaveOpenids rest (save_openid id store).2 ↔ _
      rw [ih, save_openid_mem]
      simp
      tauto

/-- Duplicate-freedom after a whole run of `save_openid` calls. -/
theorem runSaveOpenids_nodup (ids : List String) (store : List String)
    (h : store.Nodup) : (runSaveOpenids ids store).Nodup := by
  induction ids generalizing store with
  | nil => simpa [runSaveOpenids]
  | cons id rest ih =>
      exact ih (save_openid id store).2 (save_openid_nodup id store h)

/-- Claim C5: any sequence of `save_openid` calls from the empty store
yields a duplicate-free collection whose membership is exactly the set
of distinct ids passed; a call with an id already present succeeds and
leaves the store unchanged, and every call reports success. -/
theorem save_openid_set_semantics (ids : List String) :
    (runSaveOpenids ids []).Nodup ∧
    (∀ x, openidMem x (runSaveOpenids ids []) ↔ x ∈ ids) ∧
    (∀ id store, id ∈ store → save_openid id store = (true, store)) ∧
    (∀ id store, (save_openid id store).1 = true) := by
  refine ⟨runSaveOpenids_nodup ids [] List.nodup_nil, ?_, ?_, ?_⟩
  · intro x
    rw [openidMem, runSaveOpenids_mem]
    simp
  · intro id store hm
    simp [save_openid, hm]
  · intro id store
    unfold save_openid
    by_cases hm : id ∈ store <;> simp [hm]

/-- Witness for C5 at a concrete input: inserting `a`, `b`, `a` yields a
duplicate-free store whose members are exactly `a` and `b`, and the
second insertion of `a` is the identity. -/
theorem save_openid_set_semantics_witness :
    (runSaveOpenids ["a", "b", "a"] []).Nodup ∧
    (openidMem "a" (runSaveOpenids ["a", "b", "a"] []) ↔ "a" ∈ ["a", "b", "a"]) ∧
    save_openid "a" ["b", "a"] = (true, ["b", "a"]) :=
  ⟨(save_openid_set_semantics ["a", "b", "a"]).1,
   (save_openid_set_semantics ["a", "b", "a"]).2.1 "a",
   (save_openid_set_semantics ["a", "b", "a"]).2.2.1 "a" ["b", "a"] (by decide)⟩

/-! ## Essay store (`EssayHandler.save_essay_data` /
`EssayHandler.get_latest_essay` / `EssayHandler.get_all_essays`)

The Excel file rows become a `List Essay`; `datetime.now()` becomes the
argument `now`; the success of `_save_essays_to_excel` becomes the
oracle flag `ioOk`. -/

/-- One row of `essays.xlsx`: title, author, chapter, submission time. -/
structure Essay where
  title : String
  author : String
  chapter : String
  submittedAt : String
deriving DecidableEq

/-- `EssayHandler.save_essay_data`: build the new record, append it to
the loaded rows and write the whole file back; report the write's
success, leaving the rows unchanged on failure. -/
def save_essay_data (title author chapter now : String) (ioOk : Bool)
    (essays : List Essay) : Bool × List Essay :=
  let new_essay : Essay := ⟨title, author, chapter, now⟩
  if ioOk then (true, essays ++ [new_essay]) else (false, essays)

/-- `EssayHandler.get_latest_essay`: `essays[-1]` if nonempty else `None`. -/
def get_latest_essay (essays : List Essay) : Option Essay :=
  essays.getLast?

/-- `EssayHandler.get_all_essays`: the loaded rows, reversed so the most
recent submission comes first. -/
def get_all_essays (essays : List Essay) : List Essay :=
  essays.reverse

/-- Claim C6: after a successful `save_essay_data` call,
`get_latest_essay` returns exactly the just-appended record. -/
theorem get_latest_essay_after_save (title author chapter now : String)
    (ioOk : Bool) (essays : List Essay)
    (h : (save_essay_data title author chapter now ioOk essays).1 = true) :
    get_latest_essay (save_essay_data title author chapter now ioOk essays).2 =
      some ⟨title, author, chapter, now⟩ := by
  cases ioOk with
  | false => simp [save_essay_data] at h
  | true => simp [save_essay_data, get_latest_essay]

/-- Witness for C6 at a concrete input: appending to a one-element store
with a successful write makes the new record the latest. -/
theorem get_latest_essay_after_save_witness :
    get_latest_essay
      (save_essay_data "T" "A" "C" "2024-01-01 00:00:00" true
        [⟨"t0", "a0", "c0", "s0"⟩]).2 =
      some ⟨"T", "A", "C", "2024-01-01 00:00:00"⟩ :=
  get_latest_essay_after_save "T" "A" "C" "2024-01-01 00:00:00" true
    [⟨"t0", "a0", "c0", "s0"⟩] (by decide)

/-- Run a sequence of successful `save_essay_data` calls. -/
def runSaveEssays (records : List (String × String × String × String))
    (essays : List Essay) : List Essay :=
  records.foldl
    (fun st r => (save_essay_data r.1 r.2.1 r.2.2.1 r.2.2.2 true st).2) essays

/-- A store built by appends lists the records in insertion order. -/
theorem runSaveEssays_eq (records : List (String × String × String × String))
    (essays : List Essay) :
    runSaveEssays records essays =
      essays ++ records.map (fun r => ⟨r.1, r.2.1, r.2.2.1, r.2.2.2⟩) := by
  induction records generalizing essays with
  | nil => simp [runSaveEssays]
  | cons r rest ih =>
      show runSaveEssays rest (essays ++ [⟨r.1, r.2.1, r.2.2.1, r.2.2.2⟩]) = _
      rw [ih]
      simp

/-- Claim C7: `get_all_essays` returns the stored records in the exact
reverse of their insertion (append) order — most recently appended
first — both on an arbitrary store and on a store built from the empty
one by a sequence of appends. -/
theorem get_all_essays_reverse_insertion
    (records : List (String × String × String × String))
    (essays : List Essay) :
    get_all_essays essays = essays.reverse ∧
    get_all_essays (runSaveEssays records []) =
      (records.map (fun r => (⟨r.1, r.2.1, r.2.2.1, r.2.2.2⟩ : Essay))).reverse := by
  constructor
  · rfl
  · rw [get_all_essays, runSaveEssays_eq]
    simp

/-! ## Webhook processing (`WeChatHandler.process_and_reply` /
`WeChatHandler._generate_reply_xml`)

The `xml.etree.ElementTree` view of the raw body becomes an oracle:
`none` for a body the XML library rejects, otherwise an `XmlDoc` whose
fields record each `find` result — `none` when the element is absent
(so that `.text` raises `AttributeError`), `some t` when it is present
with text `t` (itself optional).  Every raised exception is caught by
the method's `try`/`except`, which answers with the fixed failure
reply. -/

/-- The `find` results of the inbound XML tree for the five element
names `process_and_reply` looks up. -/
structure XmlDoc where
  toUserName : Option (Option String)
  fromUserName : Option (Option String)
  msgType : Option (Option String)
  content : Option (Option String)
  event : Option (Option String)
deriving DecidableEq

/-- Python string formatting of an optional string: `None` prints as
`"None"`. -/
def pyStr : Option String → String
  | none => "None"
  | some s => s

/-- `WeChatHandler._generate_reply_xml`: instantiate the standard
CDATA-wrapped text-reply template (the caller passes the inbound
`FromUserName` as `to_user` and vice versa, per platform convention). -/
def generate_reply_xml (to_user from_user content : String) (now : Int) :
    String :=
  "\n        <xml>\n        <ToUserName><![CDATA[" ++ to_user ++
  "]]></ToUserName>\n        <FromUserName><![CDATA[" ++ from_user ++
  "]]></FromUserName>\n        <CreateTime>" ++ toString now ++
  "</CreateTime>\n        <MsgType><![CDATA[text]]></MsgType>\n        <Content><![CDATA[" ++
  content ++ "]]></Content>\n        </xml>\n        "

/-- The reply `process_and_reply` produces from its `except` handler. -/
def failureReply (now : Int) : String × String :=
  (generate_reply_xml "temp" "temp" "处理失败" now, "application/xml")

/-- `WeChatHandler.process_and_reply`: extract `ToUserName`,
`FromUserName` and `MsgType` (any miss raises and is caught), register
a truthy sender id, pick the reply text by message type (extracting
`Content` or `Event` on demand, again catching a miss), and wrap it in
the reply template with sender and recipient swapped. -/
def process_and_reply (doc : Option XmlDoc) (now : Int)
    (store : List String) : (String × String) × List String :=
  match doc with
  | none => (failureReply now, store)
  | some t =>
      match t.toUserName, t.fromUserName, t.msgType with
      | some to_user, some from_user, some msg_type =>
          let store' :=
            match from_user with
            | some s => if s.isEmpty then store else (save_openid s store).2
            | none => store
          if msg_type = some "text" then
            match t.content with
            | none => (failureReply now, store')
            | some user_msg =>
                ((generate_reply_xml (pyStr from_user) (pyStr to_user)
                    ("您已发送消息：[" ++ pyStr user_msg ++
                     "]。\n\n当前系统专注于论文信息收集和展示，如有需要，请访问Web页面进行操作。")
                    now, "application/xml"), store')
          else if msg_type = some "event" then
            match t.event with
            | none => (failureReply now, store')
            | some ev =>
                let reply_content :=
                  if ev = some "subscribe" then
                    "欢迎关注！您的 OpenID 已记录，我们将及时向您推送最新的论文信息摘要。请访问Web页面提交论文信息。"
                  else "当前系统已记录您的ID。发送任意消息可重新触发推送。"
                ((generate_reply_xml (pyStr from_user) (pyStr to_user)
                    reply_content now, "application/xml"), store')
          else
            ((generate_reply_xml (pyStr from_user) (pyStr to_user)
                "当前系统仅支持文本消息。" now, "application/xml"), store')
      | _, _, _ => (failureReply now, store)

/-- The inputs on which `process_and_reply`'s parsing or field
extraction raises: a body the XML library rejects, a missing mandatory
element, or a missing `Content`/`Event` element in the branch that
reads it. -/
def extractionFails : Option XmlDoc → Bool
  | none => true
  | some t =>
      match t.toUserName, t.fromUserName, t.msgType with
      | some _, some _, some msg_type =>
          (msg_type = some "text" && t.content.isNone) ||
          (msg_type = some "event" && t.event.isNone)
      | _, _, _ => true

/-- A well-formed text-reply payload: an instantiation of the standard
reply template. -/
def wellFormedTextReply (xml : String) : Prop :=
  ∃ to_user from_user content createTime,
    xml = generate_reply_xml to_user from_user content createTime

/-- Claim C8: whenever parsing or field extraction fails,
`process_and_reply` propagates no error: it returns the fixed generic
failure reply — a well-formed text-reply XML payload — with content
type `application/xml`. -/
theorem process_and_reply_failure_reply (doc : Option XmlDoc) (now : Int)
    (store : List String) (h : extractionFails doc = true) :
    (process_and_reply doc now store).1 =
      (generate_reply_xml "temp" "temp" "处理失败" now, "application/xml") ∧
    wellFormedTextReply (process_and_reply doc now store).1.1 := by
  have hfail : (process_and_reply doc now store).1 = failureReply now := by
    match doc with
    | none => rfl
    | some ⟨tu, fu, mt, ct, ev⟩ =>
        cases tu with
        | none => rfl
        | some to_user =>
        cases fu with
        | none => rfl
        | some from_user =>
        cases mt with
        | none => rfl
        | some msg_type =>
        simp only [extractionFails] at h
        by_cases htext : msg_type = some "text"
        · subst htext
          have hct : ct = none := by simpa using h
          subst hct
          rfl
        · by_cases hev : msg_type = some "event"
          · subst hev
            simp [htext] at h
            subst h
            rfl
          · simp [htext, hev] at h
  refine ⟨hfail, ?_⟩
  rw [hfail]
  exact ⟨"temp", "temp", "处理失败", now, rfl⟩

/-- Witness for C8 at a concrete input: an unparsable body yields the
fixed failure reply with content type `application/xml`. -/
theorem process_and_reply_failure_reply_witness :
    (process_and_reply none 0 []).1 =
      (generate_reply_xml "temp" "temp" "处理失败" 0, "application/xml") ∧
    wellFormedTextReply (process_and_reply none 0 []).1.1 :=
  process_and_reply_failure_reply none 0 [] (by decide)

/-- Claim C9: for every parsable message carrying a nonempty sender
identifier, `process_and_reply` registers the sender via `save_openid`,
whatever the message type — text, any event, or anything else — and
whatever the remaining fields are. -/
theorem process_and_reply_registers_sender (tU mT : Option String)
    (content ev : Option (Option String)) (s : String) (hs : s ≠ "")
    (now : Int) (store : List String) :
    (process_and_reply (some ⟨some tU, some (some s), some mT, content, ev⟩)
        now store).2 = (save_openid s store).2 := by
  have hempty : s.isEmpty = false := by
    rw [Bool.eq_false_iff]
    intro hcontra
    exact hs ((String.isEmpty_iff s).mp hcontra)
  unfold process_and_reply
  simp only [hempty]
  by_cases htext : mT = some "text"
  · simp only [htext, if_pos rfl]
    cases content with
    | none => simp
    | some user_msg => simp
  · simp only [if_neg htext]
    by_cases hev : mT = some "event"
    · simp only [hev, if_pos rfl]
      cases ev with
      | none => simp
      | some e => simp
    · simp [htext, hev]

/-- Witness for C9 at a concrete input: a `subscribe` event from sender
`user1` adds `user1` to the empty store. -/
theorem process_and_reply_registers_sender_witness :
    (process_and_reply
        (some ⟨some (some "gh_acc"), some (some "user1"), some (some "event"),
               none, some (some "subscribe")⟩) 0 []).2 =
      (save_openid "user1" []).2 :=
  process_and_reply_registers_sender (some "gh_acc") (some "event") none
    (some (some "subscribe")) "user1" (by decide) 0 []

/-! ## Lock discipline of the persistence layer (`EssayHandler.file_lock`)

Each persistence method is abstracted to the sequence of lock and file
events it performs, read off the source: `with self.file_lock:` blocks
contribute a matched acquire/release pair (the `with` statement releases
on every exit path, including the `except` returns inside the blocks),
and reads/writes of the backing files contribute file events.  A
read-modify-write cycle is lock-covered when the lock depth stays
positive from its first file event through its last. -/

/-- The three backing files of `EssayHandler`. -/
inductive FileId
  | essays
  | openids
  | messages
deriving DecidableEq

/-- One atomic event of a persistence method. -/
inductive LockEv
  | acq
  | rel
  | readF (f : FileId)
  | writeF (f : FileId)
deriving DecidableEq

/-- `EssayHandler._load_data`: lock, read the JSON file, unlock. -/
def load_data_trace : List LockEv :=
  [.acq, .readF .openids, .rel]

/-- `EssayHandler._save_data`: lock, write the JSON file, unlock. -/
def save_data_trace : List LockEv :=
  [.acq, .writeF .openids, .rel]

/-- `EssayHandler.get_all_openids`: delegates to `_load_data`. -/
def get_all_openids_trace : List LockEv :=
  load_data_trace

/-- `EssayHandler.save_openid`: load the set via `get_all_openids`, and
when the id is new, write the updated set via `_save_data`. -/
def save_openid_trace (alreadyPresent : Bool) : List LockEv :=
  get_all_openids_trace ++ if alreadyPresent then [] else save_data_trace

/-- `EssayHandler._load_essays_from_excel`: read the Excel file — with
no lock around the read. -/
def load_essays_trace : List LockEv :=
  [.readF .essays]

/-- `EssayHandler._save_essays_to_excel`: lock, write the Excel file,
unlock. -/
def save_essays_trace : List LockEv :=
  [.acq, .writeF .essays, .rel]

/-- `EssayHandler.save_essay_data`: read all rows, append the new one in
memory, write the whole file back. -/
def save_essay_data_trace : List LockEv :=
  load_essays_trace ++ save_essays_trace

/-- `EssayHandler.save_message_to_excel`: one `with self.file_lock:`
block around the read, the append and the write. -/
def save_message_trace : List LockEv :=
  [.acq, .readF .messages, .writeF .messages, .rel]

/-- Pair every event with the lock depth in effect just after it. -/
def annotateDepth (d : Int) : List LockEv → List (LockEv × Int)
  | [] => []
  | e :: es =>
      let d' := match e with
        | .acq => d + 1
        | .rel => d - 1
        | _ => d
      (e, d') :: annotateDepth d' es

/-- Is the event a file read or write? -/
def isFileEv : LockEv → Bool
  | .readF _ => true
  | .writeF _ => true
  | _ => false

/-- The segment of an annotated trace from its first file event through
its last. -/
def fileSpan (ann : List (LockEv × Int)) : List (LockEv × Int) :=
  ((ann.dropWhile fun p => !isFileEv p.1).reverse.dropWhile
      fun p => !isFileEv p.1).reverse

/-- The lock is held for the entire read-modify-write cycle: the depth
stays positive from the first file event through the last. -/
def rmwUnderLock (tr : List LockEv) : Bool :=
  (fileSpan (annotateDepth 0 tr)).all fun p => 1 ≤ p.2

/-- Every single file event happens with the lock held (even if the
lock is dropped between them). -/
def fileEvsLocked (tr : List LockEv) : Bool :=
  (annotateDepth 0 tr).all fun p => !isFileEv p.1 || 1 ≤ p.2

/-- Acquires and releases are balanced: the depth never goes negative
and returns to zero — the lock is released on every exit path. -/
def lockBalanced (tr : List LockEv) : Bool :=
  ((annotateDepth 0 tr).all fun p => 0 ≤ p.2) &&
    (((annotateDepth 0 tr).getLast?.map fun p => p.2).getD 0 == 0)

/-- Counterexample to claim C4 as stated: `save_essay_data` does not
hold the lock over its read-modify-write cycle (its read is performed
with no lock at all), and neither does an inserting `save_openid` call
(the lock is released between its read and its write). -/
theorem save_rmw_not_under_lock :
    rmwUnderLock save_essay_data_trace = false ∧
    rmwUnderLock (save_openid_trace false) = false := by
  decide

/-- Claim C4 amended: only the message-log append holds the lock for its
entire read-modify-write cycle; an inserting `save_openid` takes the
lock separately for its read and its write (each file event is
individually lock-protected but the cycle is not); `save_essay_data`
performs its read outside any lock and locks only its write; and every
method's trace is balanced, releasing the lock on every exit path. -/
theorem lock_discipline_per_method :
    rmwUnderLock save_message_trace = true ∧
    fileEvsLocked (save_openid_trace false) = true ∧
    rmwUnderLock (save_openid_trace false) = false ∧
    fileEvsLocked save_essay_data_trace = false ∧
    fileEvsLocked save_essays_trace = true ∧
    rmwUnderLock save_essay_data_trace = false ∧
    lockBalanced save_essay_data_trace = true ∧
    lockBalanced (save_openid_trace false) = true ∧
    lockBalanced (save_openid_trace true) = true ∧
    lockBalanced save_message_trace = true := by
  decide
